import Mathlib

/-!
Verification of the drift-triggered retraining control loop of the Auto-Ops
repository (src/src/drift_detector.py, src/src/serve.py, src/src/data_ingestion.py,
src/airflow/dags/retrain_dag.py).

Python floats are embedded as rationals (ℚ): every claim here is about
comparisons and data flow, never about rounding.  External collaborators
(the EvidentlyAI drift report, the HTTP transport, the sklearn estimator,
the filesystem) are passed in as explicit inputs, exactly as the spec
treats them ("external collaborators with fixed input/output contracts");
the decision logic itself is translated line by line from the source.
-/

/-- A Python value as it can appear under the `dataset_drift` key of the
EvidentlyAI report dict: a bool, a number (int/float, embedded as ℚ), or a
value of some other, unexpected type (carried as a tag string). Python's
`isinstance(x, bool)` test is checked before `isinstance(x, (int, float))`
in the source, which the constructors keep apart. -/
inductive PyVal where
  | vbool : Bool → PyVal
  | vnum : ℚ → PyVal
  | vstr : String → PyVal
  deriving DecidableEq, Repr

/-- The `result` field of one metric entry of the report dict.
`nondict` stands for a present value that is not a dict, on which
`.get('dataset_drift', False)` raises `AttributeError`; `dict dd` is a dict
whose optional `dataset_drift` entry is `dd` (with a missing `result` key
behaving as `dict none`, since `metric.get('result', {})` defaults to `{}`). -/
inductive ResultField where
  | nondict : ResultField
  | dict : Option PyVal → ResultField
  deriving DecidableEq, Repr

/-- One element of `report_dict['metrics']`: either a dict with a metric
name and a result field, or a malformed (non-dict) element on which
`metric.get('metric')` raises. -/
inductive MetricEntry where
  | entry : String → ResultField → MetricEntry
  | malformed : MetricEntry
  deriving DecidableEq, Repr

/-- The `drift_info` dict built at the end of `check_drift`
(src/src/drift_detector.py lines 155-161). `drift_score` keeps Python's
dynamic type: it stays a bool when the collaborator returned a bool, and
stays the raw value when the value had an unexpected type. -/
structure DriftInfo where
  drift_detected : Bool
  drift_score : PyVal
  threshold : ℚ
  reference_samples : ℕ
  current_samples : ℕ
  deriving DecidableEq, Repr

/-- An entry that the `for metric in metrics` loop of `check_drift` skips
without touching `drift_detected`/`drift_score` and without raising: a
well-formed dict whose `metric` name is not `DatasetDriftMetric`. -/
def skippable : MetricEntry → Bool
  | .entry name _ => name ≠ "DatasetDriftMetric"
  | .malformed => false

/-- The `try` body of `check_drift` (src/src/drift_detector.py lines
138-149): scan `metrics` for the first `DatasetDriftMetric` entry, read
`result.dataset_drift` with default `False`, branch on its dynamic type
and `break`.  `.error ()` is a raised exception (malformed entry, or a
non-dict `result`); `.ok (d, s)` is the pair
(`drift_detected`, `drift_score`) after the loop. -/
def extractDrift (threshold : ℚ) : List MetricEntry → Except Unit (Bool × PyVal)
  | [] => .ok (false, .vnum 0)
  | .malformed :: _ => .error ()
  | .entry name res :: rest =>
    if name = "DatasetDriftMetric" then
      match res with
      | .nondict => .error ()
      | .dict none => .ok (false, .vbool false)
      | .dict (some (.vbool b)) => .ok (b, .vbool b)
      | .dict (some (.vnum q)) => .ok (decide (q > threshold), .vnum q)
      | .dict (some (.vstr s)) => .ok (false, .vstr s)
    else
      extractDrift threshold rest

/-- `check_drift` (src/src/drift_detector.py lines 94-163), with the
EvidentlyAI collaborator's output passed in as the `metrics` list of its
report dict and the two dataframes represented by their lengths (the only
way the decision logic uses them).  The `except` clause resets
`drift_detected` to `False`; `drift_score` still holds its initial `0.0`
there, because the single assignment to it is immediately followed by
`break` and can raise only before assigning. -/
def check_drift (report : List MetricEntry) (threshold : ℚ)
    (referenceLen currentLen : ℕ) : Bool × DriftInfo :=
  let ds : Bool × PyVal :=
    match extractDrift threshold report with
    | .ok p => p
    | .error _ => (false, .vnum 0)
  (ds.1, { drift_detected := ds.1, drift_score := ds.2, threshold := threshold,
           reference_samples := referenceLen, current_samples := currentLen })

/-- Outcome of the primary Airflow REST call inside `trigger_retraining`:
the POST returned a status code, or raised. -/
inductive PrimaryOutcome where
  | status : ℕ → PrimaryOutcome
  | raised : PrimaryOutcome
  deriving DecidableEq, Repr

/-- `trigger_retraining` (src/src/drift_detector.py lines 178-222), with
the REST transport passed in as its outcome.  Returns (return value,
whether the `trigger_retrain.flag` marker file was touched).  On status
200/201 the function returns `True` early, before the `touch()`; on any
other status or on an exception it falls through to the file-based
fallback and returns `True`. -/
def trigger_retraining (primary : PrimaryOutcome) : Bool × Bool :=
  match primary with
  | .status code => if code = 200 ∨ code = 201 then (true, false) else (true, true)
  | .raised => (true, true)

/-- `check_retrain_trigger` (src/airflow/dags/retrain_dag.py lines 45-55),
with the filesystem passed in as whether the marker file exists.  Returns
(return value, whether the marker exists afterwards): if present it is
unlinked and the function returns `True`, otherwise nothing changes and it
returns `False`. -/
def check_retrain_trigger (markerExists : Bool) : Bool × Bool :=
  if markerExists then (true, false) else (false, markerExists)

/-- `monitor_drift` (src/src/drift_detector.py lines 225-272), restricted
to its decision logic: the reference and current samples are produced by
collaborators (ingestion or the serving API), so they enter as the report
the drift collaborator computes from them and their lengths; the trigger's
REST transport enters as `primary` and the filesystem as `markerBefore`.
Returns (return value, whether `trigger_retraining` was called, whether
the marker file exists afterwards). -/
def monitor_drift (report : List MetricEntry) (threshold : ℚ)
    (referenceLen currentLen : ℕ) (primary : PrimaryOutcome)
    (markerBefore : Bool) : Bool × Bool × Bool :=
  let verdict := check_drift report threshold referenceLen currentLen
  if verdict.1 then
    let fired := trigger_retraining primary
    (true, true, markerBefore || fired.2)
  else
    (false, false, markerBefore)

/-- C1: for every report whose first `DatasetDriftMetric` entry is reached
without an exception, a numeric `dataset_drift` value sets `detected` to
`score > threshold` (strict: equality yields `detected = false`), and a
boolean value is used directly as `detected`. -/
theorem check_drift_threshold_policy
    (pre rest : List MetricEntry) (hpre : ∀ m ∈ pre, skippable m = true)
    (q threshold : ℚ) (nr nc : ℕ) :
    ((check_drift (pre ++ .entry "DatasetDriftMetric" (.dict (some (.vnum q))) :: rest)
        threshold nr nc).1 = decide (q > threshold))
    ∧ (q = threshold →
        (check_drift (pre ++ .entry "DatasetDriftMetric" (.dict (some (.vnum q))) :: rest)
          threshold nr nc).1 = false)
    ∧ (∀ b : Bool,
        (check_drift (pre ++ .entry "DatasetDriftMetric" (.dict (some (.vbool b))) :: rest)
          threshold nr nc).1 = b) := by
  have key : ∀ v : PyVal,
      extractDrift threshold (pre ++ .entry "DatasetDriftMetric" (.dict (some v)) :: rest)
        = extractDrift threshold [.entry "DatasetDriftMetric" (.dict (some v))] := by
    intro v
    induction pre with
    | nil => rfl
    | cons m ms ih =>
      have hm := hpre m (List.mem_cons_self m ms)
      have hms : ∀ x ∈ ms, skippable x = true := fun x hx => hpre x (List.mem_cons_of_mem m hx)
      cases m with
      | malformed => simp [skippable] at hm
      | entry name res =>
        have hname : ¬ (name = "DatasetDriftMetric") := by
          simpa [skippable, decide_eq_true_eq] using hm
        simpa [extractDrift, hname] using ih hms
  refine ⟨?_, ?_, ?_⟩
  · simp [check_drift, key (.vnum q), extractDrift]
  · intro hq
    subst hq
    simp [check_drift, key (.vnum q), extractDrift]
  · intro b
    simp [check_drift, key (.vbool b), extractDrift]

/-- Witness for `check_drift_threshold_policy` at an empty prefix and the
boundary score `q = threshold = 1/2`: detected is false. -/
theorem check_drift_threshold_policy_witness :
    (check_drift [.entry "DatasetDriftMetric" (.dict (some (.vnum (1/2))))]
      (1/2) 10 10).1 = false := by
  have h := check_drift_threshold_policy [] []
    (fun m hm => absurd hm (List.not_mem_nil m)) (1/2) (1/2) 10 10
  exact h.2.1 rfl

/-- C2 counterexample: when the collaborator puts a value of unexpected
type (here a string) under `dataset_drift`, `check_drift` leaves
`detected = false` but retains the raw value as the score of the returned
verdict, so the score is not `0.0` as the claim states. -/
theorem check_drift_unexpected_type_score_not_zero :
    (check_drift [.entry "DatasetDriftMetric" (.dict (some (.vstr "err")))]
        (1/2) 10 10).1 = false
    ∧ (check_drift [.entry "DatasetDriftMetric" (.dict (some (.vstr "err")))]
        (1/2) 10 10).2.drift_score = .vstr "err"
    ∧ PyVal.vstr "err" ≠ PyVal.vnum 0 := by
  refine ⟨rfl, rfl, by decide⟩

/-- C2 (amended): on every unparseable collaborator output `check_drift`
returns (it never raises) with `detected = false` — drift is never
reported.  The score is `0.0` when the `DatasetDriftMetric` entry is
missing or when extraction raises (malformed entry, non-dict `result`);
when the `dataset_drift` key is missing the Python default `False` (the
boolean, numerically zero) is retained as the score, and when the value
has an unexpected non-bool non-numeric type the raw value is retained as
the score. -/
theorem check_drift_fail_closed
    (report pre rest : List MetricEntry)
    (hrep : ∀ m ∈ report, skippable m = true)
    (hpre : ∀ m ∈ pre, skippable m = true)
    (threshold : ℚ) (nr nc : ℕ) (s : String) :
    ((check_drift report threshold nr nc).1 = false
      ∧ (check_drift report threshold nr nc).2.drift_score = .vnum 0)
    ∧ ((check_drift (pre ++ .malformed :: rest) threshold nr nc).1 = false
      ∧ (check_drift (pre ++ .malformed :: rest) threshold nr nc).2.drift_score = .vnum 0)
    ∧ ((check_drift (pre ++ .entry "DatasetDriftMetric" .nondict :: rest) threshold nr nc).1 = false
      ∧ (check_drift (pre ++ .entry "DatasetDriftMetric" .nondict :: rest)
          threshold nr nc).2.drift_score = .vnum 0)
    ∧ ((check_drift (pre ++ .entry "DatasetDriftMetric" (.dict none) :: rest) threshold nr nc).1 = false
      ∧ (check_drift (pre ++ .entry "DatasetDriftMetric" (.dict none) :: rest)
          threshold nr nc).2.drift_score = .vbool false)
    ∧ ((check_drift (pre ++ .entry "DatasetDriftMetric" (.dict (some (.vstr s))) :: rest)
          threshold nr nc).1 = false
      ∧ (check_drift (pre ++ .entry "DatasetDriftMetric" (.dict (some (.vstr s))) :: rest)
          threshold nr nc).2.drift_score = .vstr s) := by
  have skipAll : ∀ (l : List MetricEntry), (∀ m ∈ l, skippable m = true) →
      extractDrift threshold l = .ok (false, .vnum 0) := by
    intro l hl
    induction l with
    | nil => rfl
    | cons m ms ih =>
      have hm := hl m (List.mem_cons_self m ms)
      have hms : ∀ x ∈ ms, skippable x = true := fun x hx => hl x (List.mem_cons_of_mem m hx)
      cases m with
      | malformed => simp [skippable] at hm
      | entry name res =>
        have hname : ¬ (name = "DatasetDriftMetric") := by
          simpa [skippable, decide_eq_true_eq] using hm
        simpa [extractDrift, hname] using ih hms
  have key : ∀ (e : MetricEntry) (tl : List MetricEntry),
      extractDrift threshold (pre ++ e :: tl) = extractDrift threshold (e :: tl) := by
    intro e tl
    induction pre with
    | nil => rfl
    | cons m ms ih =>
      have hm := hpre m (List.mem_cons_self m ms)
      have hms : ∀ x ∈ ms, skippable x = true := fun x hx => hpre x (List.mem_cons_of_mem m hx)
      cases m with
      | malformed => simp [skippable] at hm
      | entry name res =>
        have hname : ¬ (name = "DatasetDriftMetric") := by
          simpa [skippable, decide_eq_true_eq] using hm
        simpa [extractDrift, hname] using ih hms
  refine ⟨⟨?_, ?_⟩, ⟨?_, ?_⟩, ⟨?_, ?_⟩, ⟨?_, ?_⟩, ⟨?_, ?_⟩⟩ <;>
    simp [check_drift, skipAll report hrep, key, extractDrift]

/-- Witness for `check_drift_fail_closed` at the empty report and empty
surrounding lists. -/
theorem check_drift_fail_closed_witness :
    (check_drift ([] : List MetricEntry) (1/2) 5 5).1 = false
    ∧ (check_drift ([.malformed] : List MetricEntry) (1/2) 5 5).1 = false := by
  have h := check_drift_fail_closed [] [] []
    (fun m hm => absurd hm (List.not_mem_nil m))
    (fun m hm => absurd hm (List.not_mem_nil m)) (1/2) 5 5 "x"
  exact ⟨h.1.1, h.2.1.1⟩

/-- C3 counterexample: when the primary REST call returns HTTP 200,
`trigger_retraining` returns `True` early and the filesystem marker is
NOT touched — contradicting "created/touched ... regardless of whether
the primary REST run-creation call succeeded". -/
theorem trigger_retraining_success_skips_marker :
    trigger_retraining (.status 200) = (true, false) := by
  rfl

/-- C3 (amended): `trigger_retraining` touches the filesystem marker
exactly when the primary REST call does not return 200/201 (any other
status, or an exception); on 200/201 it returns early without touching
the marker. -/
theorem trigger_retraining_marker_iff_primary_failed
    (primary : PrimaryOutcome) :
    (trigger_retraining primary).2
      = !(primary = .status 200 ∨ primary = .status 201 : Bool) := by
  cases primary with
  | status code =>
    by_cases h : code = 200 ∨ code = 201 <;>
      simp [trigger_retraining, h, PrimaryOutcome.status.injEq]
  | raised => simp [trigger_retraining]

/-- C4: whenever the primary REST call fails — it raised, or returned a
non-2xx status (in fact any status other than 200/201) —
`trigger_retraining` touches the marker and returns `True`; and on every
outcome whatsoever the function returns `True`. -/
theorem trigger_retraining_fallback_and_true
    (code : ℕ) (hcode : ¬ (200 ≤ code ∧ code ≤ 299)) :
    trigger_retraining (.status code) = (true, true)
    ∧ trigger_retraining .raised = (true, true)
    ∧ ∀ primary : PrimaryOutcome, (trigger_retraining primary).1 = true := by
  have h : ¬ (code = 200 ∨ code = 201) := by omega
  refine ⟨by simp [trigger_retraining, h], rfl, ?_⟩
  intro primary
  cases primary with
  | status c => by_cases hc : c = 200 ∨ c = 201 <;> simp [trigger_retraining, hc]
  | raised => rfl

/-- Witness for `trigger_retraining_fallback_and_true` at status 404. -/
theorem trigger_retraining_fallback_and_true_witness :
    trigger_retraining (.status 404) = (true, true) :=
  (trigger_retraining_fallback_and_true 404 (by omega)).1

/-- C5: `check_retrain_trigger` consumes the marker exactly once: with the
marker present it returns `True` and deletes it; with it absent it returns
`False` and leaves the filesystem unchanged; two successive calls with no
intervening `trigger_retraining` return `True` then `False`. -/
theorem check_retrain_trigger_consume_once :
    check_retrain_trigger true = (true, false)
    ∧ check_retrain_trigger false = (false, false)
    ∧ ((check_retrain_trigger true).1 = true
        ∧ (check_retrain_trigger (check_retrain_trigger true).2).1 = false) := by
  refine ⟨rfl, rfl, rfl, rfl⟩

/-- C6: the monitoring cycle returns `True` and calls the retraining
trigger exactly when the drift verdict's detected flag is true, and
returns `False` touching nothing otherwise; with the collaborator
reporting `dataset_drift: true` the return value is `True`, the trigger
is fired (the remote call is attempted) and, whenever the remote call did
not come back 200/201, the marker file exists afterwards. -/
theorem monitor_drift_fires_iff_detected
    (report : List MetricEntry) (threshold : ℚ) (nr nc : ℕ)
    (primary : PrimaryOutcome) (marker : Bool) :
    ((monitor_drift report threshold nr nc primary marker).1
      = (check_drift report threshold nr nc).1)
    ∧ ((monitor_drift report threshold nr nc primary marker).2.1
      = (check_drift report threshold nr nc).1)
    ∧ ((check_drift report threshold nr nc).1 = false →
        (monitor_drift report threshold nr nc primary marker).2.2 = marker)
    ∧ ((monitor_drift [.entry "DatasetDriftMetric" (.dict (some (.vbool true)))]
          threshold nr nc primary marker).1 = true
      ∧ (monitor_drift [.entry "DatasetDriftMetric" (.dict (some (.vbool true)))]
          threshold nr nc primary marker).2.1 = true
      ∧ ((trigger_retraining primary).2 = true →
          (monitor_drift [.entry "DatasetDriftMetric" (.dict (some (.vbool true)))]
            threshold nr nc primary marker).2.2 = true)) := by
  refine ⟨?_, ?_, ?_, ?_, ?_, ?_⟩
  · by_cases h : (check_drift report threshold nr nc).1 <;> simp [monitor_drift, h]
  · by_cases h : (check_drift report threshold nr nc).1 <;> simp [monitor_drift, h]
  · intro h
    simp [monitor_drift, h]
  · simp [monitor_drift, check_drift, extractDrift]
  · simp [monitor_drift, check_drift, extractDrift]
  · intro h
    simp [monitor_drift, check_drift, extractDrift, h]

/-- Witness for `monitor_drift_fires_iff_detected`: an empty report, no
drift detected, the marker state unchanged; and the drift-true report
with a failing remote call leaves the marker created. -/
theorem monitor_drift_fires_iff_detected_witness :
    (monitor_drift [] (1/2) 3 3 .raised false).2.2 = false
    ∧ (monitor_drift [.entry "DatasetDriftMetric" (.dict (some (.vbool true)))]
        (1/2) 3 3 .raised false).2.2 = true := by
  have h := monitor_drift_fires_iff_detected [] (1/2) 3 3 .raised false
  have h2 := monitor_drift_fires_iff_detected
    [.entry "DatasetDriftMetric" (.dict (some (.vbool true)))] (1/2) 3 3 .raised false
  exact ⟨h.2.2.1 rfl, h2.2.2.2.2.2 rfl⟩

/-- A pandas timestamp as `preprocess_data` uses it: its epoch value in
seconds together with the calendar accessors `.dt.hour`, `.dt.dayofweek`
and `.dt.month` (supplied by the datetime collaborator; only the epoch
difference and these accessors are read by the source). -/
structure Timestamp where
  epochSeconds : ℚ
  hour : ℕ
  dayofweek : ℕ
  month : ℕ
  deriving DecidableEq, Repr

/-- One raw row of the parquet file as read by `preprocess_data`
(src/src/data_ingestion.py).  Every column of a pandas float frame can be
NaN/NaT, embedded as `none`; a NaN never satisfies any comparison. -/
structure RawRecord where
  trip_distance : Option ℚ
  passenger_count : Option ℚ
  PULocationID : Option ℤ
  DOLocationID : Option ℤ
  pickup_datetime : Option Timestamp
  dropoff_datetime : Option Timestamp
  deriving DecidableEq, Repr

/-- One row of the cleaned frame: the selected feature columns plus the
target `trip_duration_minutes`. -/
structure CleanedRecord where
  trip_distance : ℚ
  passenger_count : ℚ
  hour : ℕ
  day_of_week : ℕ
  month : ℕ
  pickup_location_id : ℤ
  dropoff_location_id : ℤ
  trip_duration_minutes : ℚ
  deriving DecidableEq, Repr

/-- Pandas comparison `x > c` on a possibly-NaN column value: NaN compares
false. -/
def optGT (x : Option ℚ) (c : ℚ) : Bool :=
  match x with
  | some v => decide (c < v)
  | none => false

/-- Pandas comparison `x < c` on a possibly-NaN column value: NaN compares
false. -/
def optLT (x : Option ℚ) (c : ℚ) : Bool :=
  match x with
  | some v => decide (v < c)
  | none => false

/-- Pandas comparison `x <= c` on a possibly-NaN column value: NaN compares
false. -/
def optLE (x : Option ℚ) (c : ℚ) : Bool :=
  match x with
  | some v => decide (v ≤ c)
  | none => false

/-- The first boolean mask of `preprocess_data`
(src/src/data_ingestion.py lines 84-91): distance in (0,100), passenger
count in (0,6], both location ids not NaN. -/
def validRow (r : RawRecord) : Bool :=
  optGT r.trip_distance 0 && optLT r.trip_distance 100 &&
  optGT r.passenger_count 0 && optLE r.passenger_count 6 &&
  r.PULocationID.isSome && r.DOLocationID.isSome

/-- The derived `trip_duration_minutes` column (lines 104-107):
`(dropoff - pickup).dt.total_seconds() / 60`, NaT-propagating. -/
def tripDuration (r : RawRecord) : Option ℚ :=
  match r.pickup_datetime, r.dropoff_datetime with
  | some p, some d => some ((d.epochSeconds - p.epochSeconds) / 60)
  | _, _ => none

/-- The second boolean mask (line 110): duration in (0,180]. -/
def validDuration (r : RawRecord) : Bool :=
  optGT (tripDuration r) 0 && optLE (tripDuration r) 180

/-- The feature-derivation and column-selection tail of `preprocess_data`
(lines 113-141) applied to one surviving row, ending in the `dropna`:
`none` when any selected value is still missing. -/
def toCleaned (r : RawRecord) : Option CleanedRecord :=
  match r.trip_distance, r.passenger_count, r.PULocationID, r.DOLocationID,
      r.pickup_datetime, tripDuration r with
  | some td, some pc, some pu, some dol, some pdt, some dur =>
    some { trip_distance := td, passenger_count := pc,
           hour := pdt.hour, day_of_week := pdt.dayofweek,
           month := pdt.month,
           pickup_location_id := pu, dropoff_location_id := dol,
           trip_duration_minutes := dur }
  | _, _, _, _, _, _ => none

/-- `preprocess_data` (src/src/data_ingestion.py lines 68-146) on the rows
of the parquet file: the two filter masks in source order, then feature
derivation, column selection and `dropna`. -/
def preprocess_data (rows : List RawRecord) : List CleanedRecord :=
  ((rows.filter validRow).filter validDuration).filterMap toCleaned

/-- A raw row with fractional `passenger_count = 1/2` (pandas reads the
column as float64): it passes the source's `passenger_count > 0` filter. -/
def rawHalfPassenger : RawRecord :=
  { trip_distance := some 5, passenger_count := some (1/2),
    PULocationID := some 1, DOLocationID := some 1,
    pickup_datetime := some { epochSeconds := 0, hour := 0,
                              dayofweek := 0, month := 1 },
    dropoff_datetime := some { epochSeconds := 600, hour := 0,
                               dayofweek := 0, month := 1 } }

/-- C7 counterexample: the cleaned output of `preprocess_data` on
`rawHalfPassenger` contains a record whose passenger count is 1/2, which
is not in the documented range [1,6] — the source filters
`passenger_count > 0`, not `>= 1`. -/
theorem preprocess_data_passenger_below_one :
    (preprocess_data [rawHalfPassenger]).map CleanedRecord.passenger_count = [1/2]
    ∧ ¬ ((1 : ℚ) ≤ 1/2) := by
  constructor
  · norm_num [preprocess_data, rawHalfPassenger, validRow, validDuration,
      optGT, optLT, optLE, tripDuration, toCleaned, List.filter, List.filterMap]
  · norm_num

/-- C7 (amended): every record in the cleaned output satisfies
distance in (0,100), passenger count in (0,6] (the source enforces `> 0`,
which coincides with the documented lower bound 1 only for integer
counts), duration in (0,180]; and each output record is the untouched
projection of some input row that passed every filter — violating rows are
dropped, never repaired. -/
theorem preprocess_data_bounds
    (rows : List RawRecord) (c : CleanedRecord)
    (hc : c ∈ preprocess_data rows) :
    (0 < c.trip_distance ∧ c.trip_distance < 100
      ∧ 0 < c.passenger_count ∧ c.passenger_count ≤ 6
      ∧ 0 < c.trip_duration_minutes ∧ c.trip_duration_minutes ≤ 180)
    ∧ ∃ r ∈ rows, validRow r = true ∧ validDuration r = true
        ∧ r.trip_distance = some c.trip_distance
        ∧ r.passenger_count = some c.passenger_count
        ∧ tripDuration r = some c.trip_duration_minutes := by
  obtain ⟨r, hrmem, hr⟩ := List.mem_filterMap.mp hc
  have hrdur := List.mem_filter.mp hrmem
  have hrrow := List.mem_filter.mp hrdur.1
  have hrows : r ∈ rows := hrrow.1
  have hvrow : validRow r = true := hrrow.2
  have hvdur : validDuration r = true := hrdur.2
  obtain ⟨td, htd⟩ : ∃ td, r.trip_distance = some td := by
    cases h : r.trip_distance with
    | none => rw [validRow, h] at hvrow; simp [optGT] at hvrow
    | some v => exact ⟨v, rfl⟩
  obtain ⟨pc, hpc⟩ : ∃ pc, r.passenger_count = some pc := by
    cases h : r.passenger_count with
    | none => rw [validRow, h] at hvrow; simp [optGT] at hvrow
    | some v => exact ⟨v, rfl⟩
  obtain ⟨dur, hdur⟩ : ∃ dur, tripDuration r = some dur := by
    cases h : tripDuration r with
    | none => rw [validDuration, h] at hvdur; simp [optGT] at hvdur
    | some v => exact ⟨v, rfl⟩
  have hb := hvrow
  rw [validRow, htd, hpc] at hb
  simp only [Bool.and_eq_true, optGT, optLT, optLE, decide_eq_true_eq] at hb
  have hd := hvdur
  rw [validDuration, hdur] at hd
  simp only [Bool.and_eq_true, optGT, optLE, decide_eq_true_eq] at hd
  have hcfields : c.trip_distance = td ∧ c.passenger_count = pc
      ∧ c.trip_duration_minutes = dur := by
    rw [toCleaned, htd, hpc, hdur] at hr
    cases hpu : r.PULocationID with
    | none =>
      rw [validRow, hpu] at hvrow
      simp at hvrow
    | some pu =>
      cases hdo : r.DOLocationID with
      | none =>
        rw [validRow, hdo] at hvrow
        simp at hvrow
      | some dol =>
        cases hpd : r.pickup_datetime with
        | none =>
          rw [tripDuration, hpd] at hdur
          simp at hdur
        | some pdt =>
          rw [hpu, hdo, hpd] at hr
          simp only [Option.some.injEq] at hr
          rw [← hr]
          exact ⟨rfl, rfl, rfl⟩
  refine ⟨?_, r, hrows, hvrow, hvdur, ?_, ?_, ?_⟩
  · rw [hcfields.1, hcfields.2.1, hcfields.2.2]
    exact ⟨hb.1.1.1.1.1, hb.1.1.1.1.2, hb.1.1.1.2, hb.1.1.2, hd.1, hd.2⟩
  · rw [htd, hcfields.1]
  · rw [hpc, hcfields.2.1]
  · rw [hdur, hcfields.2.2]

/-- Witness for `preprocess_data_bounds` at a concrete in-bounds row. -/
theorem preprocess_data_bounds_witness :
    (0 : ℚ) < 5 ∧ (5 : ℚ) < 100 := by
  have hmem : (⟨5, 1/2, 0, 0, 1, 1, 1, 10⟩ : CleanedRecord)
      ∈ preprocess_data [rawHalfPassenger] := by
    norm_num [preprocess_data, rawHalfPassenger, validRow, validDuration,
      optGT, optLT, optLE, tripDuration, toCleaned, List.filter, List.filterMap]
  have h := preprocess_data_bounds [rawHalfPassenger] _ hmem
  exact ⟨h.1.1, h.1.2.1⟩

/-- Outcome of one `requests.post(f"{api_url}/predict", ...)` call inside
`get_predictions_from_api`: the call returned with a status code and a
body whose `predicted_duration_minutes` entry is `body` (`none` when the
key is missing, which makes the indexing raise inside the `try`), or the
call itself raised. -/
inductive ApiOutcome where
  | response : ℕ → Option ℚ → ApiOutcome
  | raised : ApiOutcome
  deriving DecidableEq, Repr

/-- One iteration of the sampling loop of `get_predictions_from_api`
(src/src/drift_detector.py lines 66-89): `some p` means a row is appended
with predicted duration `p`, `none` means no row is appended.  A 200
response with a parseable body appends the API's prediction; any raise —
including a 200 body missing the key — lands in the `except` and appends
the locally generated `fallback`; a non-200 response satisfies neither the
`if` nor the `except`, so the row is silently dropped. -/
def sampleStep (fallback : ℚ) : ApiOutcome → Option ℚ
  | .response code body =>
    if code = 200 then
      match body with
      | some p => some p
      | none => some fallback
    else
      none
  | .raised => some fallback

/-- `get_predictions_from_api` (src/src/drift_detector.py lines 47-91)
with the HTTP transport passed in as one `(outcome, fallback)` pair per
requested sample (`outcomes.length = n_samples`; `fallback` is the
`np.random.uniform(5, 60)` mock drawn for that iteration).  Returns the
predicted-duration column of the returned frame. -/
def get_predictions_from_api (outcomes : List (ApiOutcome × ℚ)) : List ℚ :=
  outcomes.filterMap (fun x => sampleStep x.2 x.1)

/-- An iteration that appends a row: a 200 response or a raise. -/
def appendsRow : ApiOutcome × ℚ → Bool
  | (.response code _, _) => code = 200
  | (.raised, _) => true

/-- C8 counterexample: a single sample whose POST comes back with status
500 (no exception raised) is silently dropped — no fallback is
substituted, and the returned collection has 0 records instead of the
claimed n = 1. -/
theorem get_predictions_drops_non_200 :
    get_predictions_from_api [(.response 500 none, 30)] = []
    ∧ [(ApiOutcome.response 500 none, (30 : ℚ))].length = 1 := by
  constructor
  · rfl
  · rfl

/-- C8 (amended): a raised per-sample request is tolerated by substituting
the locally generated fallback, and a 200 response contributes a row, but
a non-200 response is silently dropped; the returned collection therefore
has exactly as many records as there are iterations that raised or got a
200 — which is all n only when no non-200 response occurred. -/
theorem get_predictions_length
    (outcomes : List (ApiOutcome × ℚ)) :
    (get_predictions_from_api outcomes).length = (outcomes.filter appendsRow).length
    ∧ (∀ fb : ℚ, sampleStep fb .raised = some fb)
    ∧ ((∀ x ∈ outcomes, appendsRow x = true) →
        (get_predictions_from_api outcomes).length = outcomes.length) := by
  have hlen : ∀ l : List (ApiOutcome × ℚ),
      (get_predictions_from_api l).length = (l.filter appendsRow).length := by
    intro l
    induction l with
    | nil => rfl
    | cons x xs ih =>
      obtain ⟨o, fb⟩ := x
      cases o with
      | response code body =>
        by_cases hc : code = 200
        · subst hc
          cases body <;>
            simp [get_predictions_from_api, sampleStep, appendsRow, List.filter] at ih ⊢ <;>
            exact ih
        · simp [get_predictions_from_api, sampleStep, appendsRow, hc, List.filter] at ih ⊢
          exact ih
      | raised =>
        simp [get_predictions_from_api, sampleStep, appendsRow, List.filter] at ih ⊢
        exact ih
  refine ⟨hlen outcomes, fun _ => rfl, ?_⟩
  intro hall
  rw [hlen outcomes, List.filter_eq_self.mpr hall]

/-- Witness for `get_predictions_length`: two iterations, one 200 and one
raise, both append, so the collection has exactly 2 records. -/
theorem get_predictions_length_witness :
    (get_predictions_from_api [(.response 200 (some 12), 30), (.raised, 41)]).length = 2 := by
  have h := get_predictions_length [(.response 200 (some 12), 30), (.raised, 41)]
  refine h.2.2 ?_
  intro x hx
  rw [List.mem_cons, List.mem_singleton] at hx
  rcases hx with hx | hx <;> rw [hx] <;> rfl

/-- A prediction request body as validated by the pydantic model
`TripRequest` (src/src/serve.py lines 87-95).  Integer-typed fields are
embedded as ℤ, the float field as ℚ. -/
structure TripRequest where
  trip_distance : ℚ
  passenger_count : ℤ
  hour : ℤ
  day_of_week : ℤ
  month : ℤ
  pickup_location_id : ℤ
  dropoff_location_id : ℤ
  deriving DecidableEq, Repr

/-- The pydantic `Field` bounds of `TripRequest`: `gt=0` on distance,
`ge=1 le=6` on passengers, `ge=0 le=23` on hour, `ge=0 le=6` on day of
week, `ge=1 le=12` on month, `ge=1` on both location ids. -/
def validTripRequest (t : TripRequest) : Bool :=
  decide (0 < t.trip_distance) &&
  decide (1 ≤ t.passenger_count) && decide (t.passenger_count ≤ 6) &&
  decide (0 ≤ t.hour) && decide (t.hour ≤ 23) &&
  decide (0 ≤ t.day_of_week) && decide (t.day_of_week ≤ 6) &&
  decide (1 ≤ t.month) && decide (t.month ≤ 12) &&
  decide (1 ≤ t.pickup_location_id) && decide (1 ≤ t.dropoff_location_id)

/-- The feature row built by both endpoints (src/src/serve.py lines
133-141 and 174-182): the request's fields in the fixed order in which
they are placed into the one-row dataframe. -/
def featureRow (t : TripRequest) : List ℚ :=
  [t.trip_distance, (t.passenger_count : ℚ), (t.hour : ℚ),
   (t.day_of_week : ℚ), (t.month : ℚ),
   (t.pickup_location_id : ℚ), (t.dropoff_location_id : ℚ)]

/-- The body of a successful prediction response (src/src/serve.py lines
98-101). -/
structure TripResponse where
  predicted_duration_minutes : ℚ
  model_version : String
  deriving DecidableEq, Repr

/-- What the serving layer hands back for one request: a pydantic
validation failure (rejected before the handler body runs), the handler's
HTTP 500 path, or a successful response. -/
inductive ServeResult where
  | validationError : ServeResult
  | serverError : ServeResult
  | ok : TripResponse → ServeResult
  deriving DecidableEq, Repr

/-- The `/predict` endpoint (src/src/serve.py lines 120-156) with the
loaded sklearn estimator passed in as the function `mpredict` from the
rows of the input dataframe to the prediction array, and the configured
version string as `version`.  FastAPI runs the pydantic validation before
the handler; inside the handler, `model.predict(X)[0]` raises on an empty
prediction array, which the `except` turns into an HTTP 500. -/
def predictEndpoint (mpredict : List (List ℚ) → List ℚ) (version : String)
    (t : TripRequest) : ServeResult :=
  if validTripRequest t then
    match (mpredict [featureRow t]).head? with
    | some p => .ok { predicted_duration_minutes := p, model_version := version }
    | none => .serverError
  else
    .validationError

/-- The `/predict_batch` endpoint (src/src/serve.py lines 159-200):
validation of every element of the list, one dataframe with one row per
request, one `model.predict` call, one result dict per prediction. -/
def predictBatchEndpoint (mpredict : List (List ℚ) → List ℚ) (version : String)
    (ts : List TripRequest) : Except ServeResult (List TripResponse) :=
  if ts.all validTripRequest then
    .ok ((mpredict (ts.map featureRow)).map
      (fun p => { predicted_duration_minutes := p, model_version := version }))
  else
    .error .validationError

/-- The test request of the spec with `passenger_count = 7`, all other
fields in range. -/
def tripSeven : TripRequest :=
  { trip_distance := 1, passenger_count := 7, hour := 0, day_of_week := 0,
    month := 1, pickup_location_id := 1, dropoff_location_id := 1 }

/-- The request with every field at its documented minimum
(distance 0.1, passengers 1, hour 0, day 0, month 1, both location ids 1). -/
def minimalTrip : TripRequest :=
  { trip_distance := 1/10, passenger_count := 1, hour := 0, day_of_week := 0,
    month := 1, pickup_location_id := 1, dropoff_location_id := 1 }

/-- C9: a request violating any field bound is rejected with a validation
failure before any model invocation — the result does not depend on the
model or version, so it is identical under any two models; in particular
`passenger_count = 7` is rejected; and the all-minimums request is
accepted and yields the model's single numeric duration. -/
theorem predict_validation_policy
    (t : TripRequest) (ht : validTripRequest t = false)
    (m1 m2 : List (List ℚ) → List ℚ) (v1 v2 : String)
    (mmin : List (List ℚ) → List ℚ) (vmin : String) (p : ℚ)
    (hp : mmin [featureRow minimalTrip] = [p]) :
    predictEndpoint m1 v1 t = .validationError
    ∧ predictEndpoint m1 v1 t = predictEndpoint m2 v2 t
    ∧ validTripRequest tripSeven = false
    ∧ predictEndpoint mmin vmin minimalTrip
        = .ok { predicted_duration_minutes := p, model_version := vmin } := by
  have hmin : validTripRequest minimalTrip = true := by
    norm_num [validTripRequest, minimalTrip]
  refine ⟨?_, ?_, ?_, ?_⟩
  · simp [predictEndpoint, ht]
  · simp [predictEndpoint, ht]
  · norm_num [validTripRequest, tripSeven]
  · simp [predictEndpoint, hmin, hp]

/-- Witness for `predict_validation_policy` at the `passenger_count = 7`
request and a constant model that predicts 7 minutes. -/
theorem predict_validation_policy_witness :
    predictEndpoint (fun _ => [7]) "latest" tripSeven = .validationError
    ∧ predictEndpoint (fun _ => [7]) "latest" minimalTrip
        = .ok { predicted_duration_minutes := 7, model_version := "latest" } := by
  have hseven : validTripRequest tripSeven = false := by
    norm_num [validTripRequest, tripSeven]
  have h := predict_validation_policy tripSeven hseven
    (fun _ => [7]) (fun _ => [7]) "latest" "latest"
    (fun _ => [7]) "latest" 7 rfl
  exact ⟨h.1, h.2.2.2⟩

/-- C10: for every valid request, the batch endpoint on the singleton list
returns exactly one result, and its predicted duration and model version
equal those of the single-record endpoint on the same request — both build
the same one-row feature frame and apply the same loaded model to it. -/
theorem predict_batch_singleton_agrees
    (mpredict : List (List ℚ) → List ℚ) (version : String) (t : TripRequest)
    (p : ℚ) (hv : validTripRequest t = true)
    (hp : mpredict [featureRow t] = [p]) :
    predictBatchEndpoint mpredict version [t]
        = .ok [{ predicted_duration_minutes := p, model_version := version }]
    ∧ predictEndpoint mpredict version t
        = .ok { predicted_duration_minutes := p, model_version := version } := by
  constructor
  · simp [predictBatchEndpoint, hv, hp]
  · simp [predictEndpoint, hv, hp]

/-- Witness for `predict_batch_singleton_agrees` at the all-minimums
request and a constant model predicting 12 minutes. -/
theorem predict_batch_singleton_agrees_witness :
    predictBatchEndpoint (fun _ => [12]) "latest" [minimalTrip]
        = .ok [{ predicted_duration_minutes := 12, model_version := "latest" }] := by
  have hv : validTripRequest minimalTrip = true := by
    norm_num [validTripRequest, minimalTrip]
  exact (predict_batch_singleton_agrees (fun _ => [12]) "latest" minimalTrip 12 hv rfl).1
